import Mathlib

/-!
Verification development for the MLOPs_Lab_1 repository.

The repository exposes image transformations (resize, grayscale, rotate) and
a placeholder random classifier through an HTTP API (src/api/api.py) and a
CLI (src/cli/cli.py), both delegating to src/mylib/image_classificator.py.

The image codec library (PIL/Pillow) is an external collaborator; we embed
the behavior of the exact primitives the repository calls, at the level of
the observable attributes the code manipulates (width, height, color mode,
encoded format, exception kinds and messages):

* `Image.open` succeeds exactly on buffers holding an encoded image and
  raises on other bytes (message simplified: PIL appends the repr of the
  file object, a memory address we elide).
* `Image.resize((w, h))` raises `ValueError: height and width must be > 0`
  when either size is below 1 (check in Pillow's C layer `_imaging.c`),
  otherwise yields an image of exactly the requested size and the same mode.
* `Image.convert("L")` yields a single-channel image of the same size.
* `Image.rotate(d, expand=True)` reduces the angle modulo 360 and, on the
  right-angle residues 0/90/180/270 that Pillow special-cases exactly
  (copy / transpose), keeps or swaps the dimensions. For any other residue
  Pillow computes the expanded bounding box with floating-point
  trigonometry; that computation is kept abstract as a parameter `gen`.
* `save(buf, format="JPEG")` succeeds exactly on the modes Pillow's JPEG
  plugin can write (its RAWMODE table) and raises
  `OSError: cannot write mode <m> as JPEG` on the others (notably RGBA and
  P, both valid PNG modes).
-/

namespace MLOpsLab

/-- DecodedImage: the in-memory pixel representation, with the attributes
the repository observes: width, height and color mode. -/
structure DecodedImage where
  width : Nat
  height : Nat
  mode : String
deriving DecidableEq

/-- ImageBuffer: an in-memory byte sequence. Either the encoding of an image
in some container format, or bytes that no decoder accepts. -/
inductive ImageBuffer where
  | encoded (img : DecodedImage) (format : String)
  | raw (data : String)
deriving DecidableEq

/-- PILError: the codec-level faults the repository can trigger. -/
inductive PILError where
  | cannotIdentify
  | badResizeSize
  | cannotWriteMode (m : String)
deriving DecidableEq

/-- Message carried by each codec-level fault, as Pillow words it. -/
def PILError.message : PILError → String
  | .cannotIdentify => "cannot identify image file"
  | .badResizeSize => "height and width must be > 0"
  | .cannotWriteMode m => "cannot write mode " ++ m ++ " as JPEG"

/-- Model of `PIL.Image.open`: decodes an encoded buffer, raises on other bytes. -/
def pilOpen : ImageBuffer → Except PILError DecodedImage
  | .encoded img _ => .ok img
  | .raw _ => .error .cannotIdentify

/-- Modes Pillow's JPEG plugin can write (the keys of its RAWMODE table). -/
def JPEG_WRITABLE_MODES : List String := ["1", "L", "RGB", "RGBX", "CMYK", "YCbCr"]

/-- Model of `img.save(buf, format="JPEG")`: re-encodes as JPEG, raising on
modes the JPEG plugin cannot write (for example RGBA). -/
def pilSaveJpeg (img : DecodedImage) : Except PILError ImageBuffer :=
  if img.mode ∈ JPEG_WRITABLE_MODES then .ok (.encoded img "JPEG")
  else .error (.cannotWriteMode img.mode)

/-- Model of `img.resize((w, h))`: raises when a requested size is below 1,
otherwise forces the exact requested dimensions, keeping the mode. -/
def pilResize (img : DecodedImage) (w h : Int) : Except PILError DecodedImage :=
  if w < 1 ∨ h < 1 then .error .badResizeSize
  else .ok { img with width := w.toNat, height := h.toNat }

/-- Model of `img.convert("L")`: same dimensions, single-channel mode. -/
def pilConvertL (img : DecodedImage) : DecodedImage :=
  { img with mode := "L" }

/-- Model of `img.rotate(degrees, expand=True)`. Pillow reduces the angle
modulo 360 and handles the residues 0, 90, 180 and 270 exactly (copy or
transpose): 90 and 270 swap width and height, 0 and 180 keep them. Any other
residue goes through floating-point trigonometry to size the expanded
canvas; that sizing is abstracted as the parameter `gen`. -/
def pilRotateExpand (gen : Nat → Nat → Nat × Nat) (img : DecodedImage) (degrees : Int) :
    DecodedImage :=
  let a := degrees.emod 360
  if a = 0 then img
  else if a = 90 then { img with width := img.height, height := img.width }
  else if a = 180 then img
  else if a = 270 then { img with width := img.height, height := img.width }
  else { img with width := (gen img.width img.height).1, height := (gen img.width img.height).2 }

/-- ProcError: the single error kind the transform engine exposes
(a Python `ValueError` carrying a descriptive message). -/
inductive ProcError where
  | processingError (msg : String)
deriving DecidableEq

/-- Embedding of `resize_image` (src/mylib/image_classificator.py): open,
resize to the requested dimensions, save as JPEG; any fault is re-raised
as a ValueError wrapping the underlying message. -/
def resize_image (image_file : ImageBuffer) (width height : Int) : Except ProcError ImageBuffer :=
  match (match pilOpen image_file with
    | .ok img =>
        match pilResize img width height with
        | .ok resized_img => pilSaveJpeg resized_img
        | .error e => .error e
    | .error e => .error e) with
  | .ok img_bytes => .ok img_bytes
  | .error e => .error (.processingError ("Error during image processing: " ++ e.message))

/-- Embedding of `convert_to_grayscale` (src/mylib/image_classificator.py):
open, convert to mode "L", save as JPEG; faults wrapped as ValueError. -/
def convert_to_grayscale (image_file : ImageBuffer) : Except ProcError ImageBuffer :=
  match (match pilOpen image_file with
    | .ok img => pilSaveJpeg (pilConvertL img)
    | .error e => .error e) with
  | .ok img_bytes => .ok img_bytes
  | .error e => .error (.processingError ("Error during grayscale conversion: " ++ e.message))

/-- Embedding of `rotate_image` (src/mylib/image_classificator.py): open,
rotate counter-clockwise with canvas expansion, save as JPEG; faults wrapped
as ValueError. `gen` abstracts the float bounding-box sizing used on
non-right angles. -/
def rotate_image (gen : Nat → Nat → Nat × Nat) (image_file : ImageBuffer) (degrees : Int) :
    Except ProcError ImageBuffer :=
  match (match pilOpen image_file with
    | .ok img => pilSaveJpeg (pilRotateExpand gen img degrees)
    | .error e => .error e) with
  | .ok img_bytes => .ok img_bytes
  | .error e => .error (.processingError ("Error during image rotation: " ++ e.message))

/-- Embedding of `IMAGE_CLASSES` (src/mylib/image_classificator.py). -/
def IMAGE_CLASSES : List String := ["person", "airplane", "ball", "house", "truck"]

/-- Model of `random.choice(seq)`: the random source is modelled as a
natural number `r`; `random.choice` picks index `_randbelow(len(seq))`,
modelled as `r % seq.length`. -/
def randomChoice (seq : List String) (r : Nat) : String :=
  seq.getD (r % seq.length) ""

/-- Embedding of `predict_image_class` (src/mylib/image_classificator.py):
the buffer argument is unused; the result is a random choice from
`IMAGE_CLASSES`, with the random source passed explicitly. -/
def predict_image_class (_image_file : ImageBuffer) (r : Nat) : String :=
  randomChoice IMAGE_CLASSES r

/-- HttpExn: a FastAPI `HTTPException` with a status code and a detail
message, as raised by the API validation helper. -/
inductive HttpExn where
  | httpException (status_code : Nat) (detail : String)
deriving DecidableEq

/-- Embedding of `_validate_image_type` (src/api/api.py): accepts exactly
the strings "image/jpeg" and "image/png", else raises HTTP 400. -/
def _validate_image_type (content_type : String) : Except HttpExn Unit :=
  if content_type ∈ ["image/jpeg", "image/png"] then .ok ()
  else .error (.httpException 400 "Invalid image format. Only JPEG/PNG allowed.")

/-- CliExn: the exception kinds the CLI command bodies can raise and that
their `except (ValueError, FileNotFoundError)` clause catches. -/
inductive CliExn where
  | valueError (msg : String)
  | fileNotFoundError (msg : String)
deriving DecidableEq

/-- Message carried by a CLI exception (the `str(e)` used in the
`ERROR: {e}` line). -/
def CliExn.message : CliExn → String
  | .valueError msg => msg
  | .fileNotFoundError msg => msg

/-- PathM: a filesystem path, kept as its final component split into stem
and extension, mirroring the `pathlib.Path` attributes the CLI reads. -/
structure PathM where
  stem : String
  suffix : String
deriving DecidableEq

/-- Model of `Path.name`: the final component, stem plus extension. -/
def PathM.name (p : PathM) : String := p.stem ++ p.suffix

/-- Model of Python `str.lower()` as a character-level map (the accepted
extensions are ASCII, where the two functions agree). -/
def pyLower (s : String) : String := ⟨s.data.map Char.toLower⟩

/-- Embedding of `_validate_image_path` (src/cli/cli.py): accepts when the
lowercased extension is .jpg, .jpeg or .png, else raises ValueError. -/
def _validate_image_path (image_path : PathM) : Except CliExn Unit :=
  if pyLower image_path.suffix ∈ [".jpg", ".jpeg", ".png"] then .ok ()
  else .error (.valueError "Invalid file extension. Only .jpg, .jpeg, or .png are allowed.")

/-- FSModel: the filesystem as a partial map from paths to file contents. -/
def FSModel : Type := PathM → Option ImageBuffer

/-- Model of `open(path, "rb")` followed by `f.read()`: yields the file
bytes, raising FileNotFoundError when the path does not exist. -/
def openRead (fs : FSModel) (p : PathM) : Except CliExn ImageBuffer :=
  match fs p with
  | some b => .ok b
  | none => .error (.fileNotFoundError ("[Errno 2] No such file or directory: " ++ p.name))

/-- CliOutput: what a CLI command invocation leaves behind: the lines echoed
to stdout, the lines echoed to stderr, and any exception escaping the
command boundary. -/
structure CliOutput where
  stdoutLines : List String
  stderrLines : List String
  raised : Option CliExn
deriving DecidableEq

/-- Body of the CLI `predict` command (src/cli/cli.py), the statements of
its `try` block: validate the extension, read the file, predict, and return
the success line to echo. -/
def cliPredictBody (fs : FSModel) (image_path : PathM) (r : Nat) : Except CliExn String :=
  match _validate_image_path image_path with
  | .error e => .error e
  | .ok _ =>
      match openRead fs image_path with
      | .error e => .error e
      | .ok image_bytes =>
          let predicted_class := predict_image_class image_bytes r
          .ok ("The class predicted for " ++ image_path.name ++ " is: " ++ predicted_class)

/-- Embedding of the CLI `predict` command: runs the body; on success echoes
the prediction line, on ValueError or FileNotFoundError echoes
`ERROR: <message>` to stderr and swallows the exception. -/
def cliPredict (fs : FSModel) (image_path : PathM) (r : Nat) : CliOutput :=
  match cliPredictBody fs image_path r with
  | .ok line => { stdoutLines := [line], stderrLines := [], raised := none }
  | .error e => { stdoutLines := [], stderrLines := ["ERROR: " ++ e.message], raised := none }

/-- Body of the CLI `resize` command (src/cli/cli.py), the statements of its
`try` block up to the write: validate the input extension, read the input
file, resize (its ValueError propagates as raised), and return the success
line together with the bytes to write to the output path. -/
def cliResizeBody (fs : FSModel) (input_path output_path : PathM) (width height : Int) :
    Except CliExn (String × ImageBuffer) :=
  match _validate_image_path input_path with
  | .error e => .error e
  | .ok _ =>
      match openRead fs input_path with
      | .error e => .error e
      | .ok image_bytes =>
          match resize_image image_bytes width height with
          | .error (.processingError m) => .error (CliExn.valueError m)
          | .ok resized_bytes =>
              .ok ("Image resized from " ++ input_path.name ++ " to " ++ toString width ++ "x" ++
                toString height ++ " and saved to " ++ output_path.name, resized_bytes)

/-- Embedding of the CLI `resize` command: runs the body; on success writes
the resized bytes to the output path and echoes the confirmation line, on
ValueError or FileNotFoundError echoes `ERROR: <message>` to stderr,
swallows the exception and leaves the filesystem untouched. -/
def cliResize (fs : FSModel) (input_path output_path : PathM) (width height : Int) :
    CliOutput × FSModel :=
  match cliResizeBody fs input_path output_path width height with
  | .ok (line, resized_bytes) =>
      ({ stdoutLines := [line], stderrLines := [], raised := none },
       fun q => if q = output_path then some resized_bytes else fs q)
  | .error e =>
      ({ stdoutLines := [], stderrLines := ["ERROR: " ++ e.message], raised := none }, fs)

/-! Theorems -/

/-- C1 (counterexample). The claim fails as stated: an RGBA PNG is an
accepted-type image, yet `resize_image` on it raises ProcessingError because
Pillow cannot write mode RGBA as JPEG; and for requested width 0 on an RGB
JPEG the codec raises instead of producing a 0-wide image. -/
theorem C1_resize_counterexample :
    resize_image (.encoded ⟨10, 10, "RGBA"⟩ "PNG") 50 50 =
      .error (.processingError
        "Error during image processing: cannot write mode RGBA as JPEG") ∧
    resize_image (.encoded ⟨10, 10, "RGB"⟩ "JPEG") 0 50 =
      .error (.processingError
        "Error during image processing: height and width must be > 0") := by
  constructor <;> rfl

/-- C1 (amended). For every accepted-type image whose decoded mode the JPEG
encoder can write, and every requested width and height at least 1,
`resize_image` returns a decodable JPEG buffer whose pixel dimensions are
exactly the requested ones, regardless of the original dimensions. -/
theorem C1_resize_exact_dims (img : DecodedImage) (fmt : String) (w h : Int)
    (hm : img.mode ∈ JPEG_WRITABLE_MODES) (hw : 1 ≤ w) (hh : 1 ≤ h) :
    resize_image (.encoded img fmt) w h =
      .ok (.encoded { width := w.toNat, height := h.toNat, mode := img.mode } "JPEG") := by
  have hs : ¬(w < 1 ∨ h < 1) := by omega
  simp [resize_image, pilOpen, pilResize, pilSaveJpeg, hs, hm]

/-- C1 (witness). Concrete instance: a 10x10 RGB JPEG resized to 50x50. -/
theorem C1_resize_exact_dims_witness :
    resize_image (.encoded ⟨10, 10, "RGB"⟩ "JPEG") 50 50 =
      .ok (.encoded ⟨50, 50, "RGB"⟩ "JPEG") :=
  C1_resize_exact_dims ⟨10, 10, "RGB"⟩ "JPEG" 50 50 (by decide) (by decide) (by decide)

/-- C2 (counterexample). The claim fails as stated: rotating an RGBA PNG by
90 degrees raises ProcessingError at the JPEG re-encode step instead of
returning a decodable image with swapped dimensions. -/
theorem C2_rotate_counterexample :
    rotate_image (fun w h => (w, h)) (.encoded ⟨10, 20, "RGBA"⟩ "PNG") 90 =
      .error (.processingError
        "Error during image rotation: cannot write mode RGBA as JPEG") := by
  rfl

/-- C2 (amended). For every accepted-type image whose decoded mode the JPEG
encoder can write and every degrees in {0, 90, 180, 270, 360},
`rotate_image` returns a decodable image; for 90/270 the output width and
height are the source height and width swapped, for 0/180/360 the output
dimensions equal the source dimensions. -/
theorem C2_rotate_right_angles (gen : Nat → Nat → Nat × Nat) (img : DecodedImage)
    (fmt : String) (d : Int) (hm : img.mode ∈ JPEG_WRITABLE_MODES)
    (hd : d ∈ ([0, 90, 180, 270, 360] : List Int)) :
    rotate_image gen (.encoded img fmt) d =
      .ok (.encoded
        { width := if d = 90 ∨ d = 270 then img.height else img.width,
          height := if d = 90 ∨ d = 270 then img.width else img.height,
          mode := img.mode } "JPEG") := by
  have e0 : (0 : Int).emod 360 = 0 := by decide
  have e90 : (90 : Int).emod 360 = 90 := by decide
  have e180 : (180 : Int).emod 360 = 180 := by decide
  have e270 : (270 : Int).emod 360 = 270 := by decide
  have e360 : (360 : Int).emod 360 = 0 := by decide
  fin_cases hd <;>
    simp [rotate_image, pilOpen, pilRotateExpand, pilSaveJpeg, hm, e0, e90, e180, e270, e360]

/-- C2 (witness). Concrete instance: a 10x20 RGB JPEG rotated by 90 degrees
becomes 20x10. -/
theorem C2_rotate_right_angles_witness :
    rotate_image (fun w h => (w, h)) (.encoded ⟨10, 20, "RGB"⟩ "JPEG") 90 =
      .ok (.encoded ⟨20, 10, "RGB"⟩ "JPEG") := by
  have h := C2_rotate_right_angles (fun w h => (w, h)) ⟨10, 20, "RGB"⟩ "JPEG" 90
    (by decide) (by decide)
  simpa using h

/-- C3. For every accepted-type image, `convert_to_grayscale` returns a
decodable buffer re-encoded as JPEG whose color mode is the single-channel
luminance mode "L" (dimensions preserved). -/
theorem C3_grayscale_mode (img : DecodedImage) (fmt : String) :
    convert_to_grayscale (.encoded img fmt) =
      .ok (.encoded { width := img.width, height := img.height, mode := "L" } "JPEG") := by
  simp [convert_to_grayscale, pilOpen, pilConvertL, pilSaveJpeg, JPEG_WRITABLE_MODES]

/-- C4. Failure policy of the transform engine: each of the three transforms
either returns a buffer or fails with the single ProcessingError kind (no
other exception shape can reach the caller), and on bytes that are not a
decodable image each one always fails with a ProcessingError wrapping the
decode fault, never returning any output. -/
theorem C4_processing_error_policy :
    (∀ (b : ImageBuffer) (w h : Int),
      (∃ out, resize_image b w h = .ok out) ∨
      (∃ m, resize_image b w h = .error (.processingError m))) ∧
    (∀ b, (∃ out, convert_to_grayscale b = .ok out) ∨
      (∃ m, convert_to_grayscale b = .error (.processingError m))) ∧
    (∀ gen b d, (∃ out, rotate_image gen b d = .ok out) ∨
      (∃ m, rotate_image gen b d = .error (.processingError m))) ∧
    (∀ (s : String) (w h : Int),
      resize_image (.raw s) w h =
        .error (.processingError
          "Error during image processing: cannot identify image file")) ∧
    (∀ s, convert_to_grayscale (.raw s) =
        .error (.processingError
          "Error during grayscale conversion: cannot identify image file")) ∧
    (∀ gen (s : String) (d : Int), rotate_image gen (.raw s) d =
        .error (.processingError
          "Error during image rotation: cannot identify image file")) := by
  refine ⟨?_, ?_, ?_, fun s w h => rfl, fun s => rfl, fun gen s d => rfl⟩
  · intro b w h
    match hb : resize_image b w h with
    | .ok out => exact Or.inl ⟨out, rfl⟩
    | .error (.processingError m) => exact Or.inr ⟨m, rfl⟩
  · intro b
    match hb : convert_to_grayscale b with
    | .ok out => exact Or.inl ⟨out, rfl⟩
    | .error (.processingError m) => exact Or.inr ⟨m, rfl⟩
  · intro gen b d
    match hb : rotate_image gen b d with
    | .ok out => exact Or.inl ⟨out, rfl⟩
    | .error (.processingError m) => exact Or.inr ⟨m, rfl⟩

/-- C5. The API validator accepts a declared content type iff it is exactly
"image/jpeg" or "image/png", rejecting everything else with the single
HTTP 400 unsupported-format error; the CLI validator accepts a path iff its
lowercased extension is .jpg, .jpeg or .png, rejecting everything else with
the single unsupported-format ValueError. -/
theorem C5_validation_accept_iff :
    (∀ content_type : String,
      _validate_image_type content_type = .ok () ↔
        content_type = "image/jpeg" ∨ content_type = "image/png") ∧
    (∀ content_type : String,
      _validate_image_type content_type = .ok () ∨
      _validate_image_type content_type =
        .error (.httpException 400 "Invalid image format. Only JPEG/PNG allowed.")) ∧
    (∀ p : PathM,
      _validate_image_path p = .ok () ↔
        pyLower p.suffix ∈ ([".jpg", ".jpeg", ".png"] : List String)) ∧
    (∀ p : PathM,
      _validate_image_path p = .ok () ∨
      _validate_image_path p =
        .error (.valueError
          "Invalid file extension. Only .jpg, .jpeg, or .png are allowed.")) := by
  refine ⟨fun ct => ?_, fun ct => ?_, fun p => ?_, fun p => ?_⟩
  · by_cases hc : ct ∈ (["image/jpeg", "image/png"] : List String) <;>
      simp_all [_validate_image_type]
  · by_cases hc : ct ∈ (["image/jpeg", "image/png"] : List String) <;>
      simp [_validate_image_type, hc]
  · by_cases hc : pyLower p.suffix ∈ ([".jpg", ".jpeg", ".png"] : List String) <;>
      simp_all [_validate_image_path]
  · by_cases hc : pyLower p.suffix ∈ ([".jpg", ".jpeg", ".png"] : List String) <;>
      simp [_validate_image_path, hc]

/-- C6. `predict_image_class` always returns a member of the fixed
five-element label set, and repeated calls on the same buffer need not
agree (two random-source states yielding different labels exist). -/
theorem C6_predict_label_set (b : ImageBuffer) (r : Nat) :
    predict_image_class b r ∈ IMAGE_CLASSES ∧
    IMAGE_CLASSES = ["person", "airplane", "ball", "house", "truck"] ∧
    predict_image_class b 0 ≠ predict_image_class b 1 := by
  have hne : predict_image_class b 0 ≠ predict_image_class b 1 := by
    show ("person" : String) ≠ "airplane"
    decide
  refine ⟨?_, rfl, hne⟩
  show IMAGE_CLASSES.getD (r % IMAGE_CLASSES.length) "" ∈ IMAGE_CLASSES
  have h5 : r % IMAGE_CLASSES.length < IMAGE_CLASSES.length :=
    Nat.mod_lt _ (by decide)
  rw [List.getD_eq_getElem _ _ h5]
  exact List.getElem_mem h5

/-- C7. `predict_image_class` ignores the buffer content entirely: from the
same random-source state, any two buffers yield the same label. -/
theorem C7_predict_ignores_buffer (b1 b2 : ImageBuffer) (r : Nat) :
    predict_image_class b1 r = predict_image_class b2 r := rfl

/-- C8. Whenever the body of the CLI predict or resize command raises one of
the caught exception kinds (invalid extension, processing failure, file not
found), the command echoes a single line prefixed "ERROR: " with the message
to the error stream, lets no exception escape the command boundary, and
echoes no success line to stdout. -/
theorem C8_cli_error_reporting (fs : FSModel) (p inp outp : PathM) (r : Nat)
    (w h : Int) (e ex : CliExn) :
    (cliPredictBody fs p r = .error e →
      cliPredict fs p r =
        { stdoutLines := [], stderrLines := ["ERROR: " ++ e.message], raised := none }) ∧
    (cliResizeBody fs inp outp w h = .error ex →
      (cliResize fs inp outp w h).1 =
        { stdoutLines := [], stderrLines := ["ERROR: " ++ ex.message], raised := none }) := by
  constructor
  · intro hb
    simp [cliPredict, hb]
  · intro hb
    simp [cliResize, hb]

/-- C8 (witness). Concrete instances: predict on a .txt path reports the
invalid-extension error; resize on a .jpg file holding non-image bytes
reports the wrapped processing error; neither emits stdout nor raises. -/
theorem C8_cli_error_reporting_witness :
    cliPredict (fun _ => none) ⟨"file", ".txt"⟩ 0 =
      { stdoutLines := [],
        stderrLines :=
          ["ERROR: Invalid file extension. Only .jpg, .jpeg, or .png are allowed."],
        raised := none } ∧
    (cliResize (fun _ => some (.raw "this is not an image")) ⟨"in", ".jpg"⟩
        ⟨"out", ".jpg"⟩ 50 50).1 =
      { stdoutLines := [],
        stderrLines :=
          ["ERROR: Error during image processing: cannot identify image file"],
        raised := none } :=
  ⟨(C8_cli_error_reporting (fun _ => none) ⟨"file", ".txt"⟩ ⟨"in", ".jpg"⟩
      ⟨"out", ".jpg"⟩ 0 50 50
      (.valueError "Invalid file extension. Only .jpg, .jpeg, or .png are allowed.")
      (.valueError "Error during image processing: cannot identify image file")).1 rfl,
   (C8_cli_error_reporting (fun _ => some (.raw "this is not an image"))
      ⟨"file", ".txt"⟩ ⟨"in", ".jpg"⟩ ⟨"out", ".jpg"⟩ 0 50 50
      (.valueError "Invalid file extension. Only .jpg, .jpeg, or .png are allowed.")
      (.valueError "Error during image processing: cannot identify image file")).2 rfl⟩

/-- C9. The CLI predict command succeeds and echoes the prediction line for
every existing file whose extension is accepted case-insensitively,
regardless of the file content (the prediction path never decodes the
bytes). -/
theorem C9_cli_predict_no_decode (fs : FSModel) (p : PathM) (r : Nat) (b : ImageBuffer)
    (hf : fs p = some b)
    (hs : pyLower p.suffix ∈ ([".jpg", ".jpeg", ".png"] : List String)) :
    cliPredict fs p r =
      { stdoutLines :=
          ["The class predicted for " ++ p.name ++ " is: " ++ predict_image_class b r],
        stderrLines := [], raised := none } := by
  simp [cliPredict, cliPredictBody, _validate_image_path, hs, openRead, hf]

/-- C9 (witness). Concrete instance: an existing .JPG file holding plain
text (not a decodable image) still yields a prediction line. -/
theorem C9_cli_predict_no_decode_witness :
    cliPredict (fun _ => some (.raw "plain text, not an image")) ⟨"photo", ".JPG"⟩ 0 =
      { stdoutLines := ["The class predicted for photo.JPG is: person"],
        stderrLines := [], raised := none } := by
  have h := C9_cli_predict_no_decode (fun _ => some (.raw "plain text, not an image"))
    ⟨"photo", ".JPG"⟩ 0 (.raw "plain text, not an image") rfl (by decide)
  simpa using h

/-- C10. The CLI resize command writes OUTPUT_PATH only after `resize_image`
has returned successfully: when the body fails (extension validation, file
not found, or image processing), the filesystem is returned unchanged; on
success exactly the output path is updated with the resized bytes. -/
theorem C10_cli_resize_write_after_success (fs : FSModel) (inp outp : PathM)
    (w h : Int) :
    (∀ e, cliResizeBody fs inp outp w h = .error e →
      (cliResize fs inp outp w h).2 = fs) ∧
    (∀ line rb, cliResizeBody fs inp outp w h = .ok (line, rb) →
      (cliResize fs inp outp w h).2 outp = some rb ∧
      ∀ q, q ≠ outp → (cliResize fs inp outp w h).2 q = fs q) := by
  constructor
  · intro e hb
    simp [cliResize, hb]
  · intro line rb hb
    refine ⟨?_, fun q hq => ?_⟩
    · simp [cliResize, hb]
    · simp [cliResize, hb, hq]

/-- C10 (witness). Concrete instances: a failing resize (input is a .txt
path) leaves the filesystem untouched; a successful resize stores the
resized JPEG at the output path. -/
theorem C10_cli_resize_write_after_success_witness :
    (cliResize (fun _ => none) ⟨"in", ".txt"⟩ ⟨"out", ".jpg"⟩ 50 50).2 =
      (fun _ => none) ∧
    (cliResize (fun _ => some (.encoded ⟨10, 10, "RGB"⟩ "JPEG")) ⟨"in", ".jpg"⟩
      ⟨"out", ".jpg"⟩ 50 50).2 ⟨"out", ".jpg"⟩ =
      some (.encoded ⟨50, 50, "RGB"⟩ "JPEG") :=
  ⟨(C10_cli_resize_write_after_success (fun _ => none) ⟨"in", ".txt"⟩
      ⟨"out", ".jpg"⟩ 50 50).1
      (.valueError "Invalid file extension. Only .jpg, .jpeg, or .png are allowed.") rfl,
   ((C10_cli_resize_write_after_success
      (fun _ => some (.encoded ⟨10, 10, "RGB"⟩ "JPEG")) ⟨"in", ".jpg"⟩
      ⟨"out", ".jpg"⟩ 50 50).2
      "Image resized from in.jpg to 50x50 and saved to out.jpg"
      (.encoded ⟨50, 50, "RGB"⟩ "JPEG") rfl).1⟩

end MLOpsLab
